import Mathlib

/-!
Shallow embedding of the movie_mcp repository (FastAPI watchlist service over
sqlite, with a TMDB client), written from the sources in src/:
  - src/tmdb_client.py : remote-metadata client (normalization, date parsing,
    rate limiting)
  - src/db.py          : the three sqlite tables Film / Meta / Genre
  - src/routes.py      : the watchlist CRUD route handlers

Conventions of the embedding:
  - sqlite tables are lists of row structures, kept in rowid (insertion) order;
  - the network is abstracted: a route that performs a remote fetch takes the
    fetch outcome as an explicit argument;
  - Python exceptions and `raise HTTPException` become an `Except` error
    channel carrying the HTTP status code and detail string;
  - `db.rollback()` is modelled by returning the state the handler was called
    with (uncommitted statements are discarded);
  - python `datetime.date` values are modelled by a year/month/day record
    (sqlite stores them as ISO strings and the code re-parses them on read,
    an identity round trip not modelled separately).
-/

namespace MovieMcp

/-- A calendar date, as produced by `datetime.strptime(s, "%Y-%m-%d").date()`. -/
structure Ymd where
  year : Nat
  month : Nat
  day : Nat
deriving DecidableEq

/-- The request-side media type tag, the Literal["movie", "tv"] of the routes. -/
inductive MediaType
  | movie
  | tv
deriving DecidableEq

/-- The stored media type, the Literal["movie", "series"] of models.FilmBase. -/
inductive FilmType
  | movie
  | series
deriving DecidableEq

/-- Literal["PlanToWatch", "Watching", "Watched", "Dropped", "OnHold"]. -/
inductive WatchStatus
  | planToWatch
  | watching
  | watched
  | dropped
  | onHold
deriving DecidableEq

/-! ### Character-list string utilities

Python `str.split(sep)` for a one-character separator, and the joining done by
sqlite GROUP_CONCAT, are embedded as structural recursions on `List Char`.
`splitOnChar sep l` splits `l` at every occurrence of `sep` (so it never
returns `[]`, and `splitOnChar sep [] = [[]]`, matching `"".split(sep)`).
-/

def splitOnChar (sep : Char) : List Char → List (List Char)
  | [] => [[]]
  | c :: cs =>
    if c = sep then
      [] :: splitOnChar sep cs
    else
      match splitOnChar sep cs with
      | [] => [[c]]
      | p :: ps => (c :: p) :: ps

/-- Joining with a one-character separator (GROUP_CONCAT with its default ","
separator, over the rows in rowid order). -/
def joinChar (sep : Char) : List (List Char) → List Char
  | [] => []
  | [l] => l
  | l :: ls => l ++ sep :: joinChar sep ls

/-- Python `s.split(",")` on a `String`. -/
def pySplitComma (s : String) : List String :=
  (splitOnChar ',' s.toList).map String.mk

/-! ### src/tmdb_client.py -/

/-- Python leap-year rule used by `datetime` (Gregorian). -/
def isLeapYear (y : Nat) : Bool :=
  (y % 4 == 0 && y % 100 != 0) || y % 400 == 0

def daysInMonth (y m : Nat) : Nat :=
  if m = 2 then (if isLeapYear y then 29 else 28)
  else if m = 4 ∨ m = 6 ∨ m = 9 ∨ m = 11 then 30
  else 31

/-- Digits to a natural number, most significant first. -/
def digitsToNat (l : List Char) : Nat :=
  l.foldl (fun n c => n * 10 + (c.toNat - 48)) 0

/-- Embeds `datetime.strptime(s, "%Y-%m-%d").date()`.

CPython strptime matches the format with the regex
`^(\d\d\d\d)-(1[0-2]|0[1-9]|[1-9])-(3[01]|[12]\d|0[1-9]|[1-9])$` (a 4-digit
year, a 1-2 digit month in 1..12, a 1-2 digit day in 1..31) and then builds a
`datetime`, which raises ValueError when the year is below MINYEAR = 1 or the
day is out of range for the month.  Splitting on the separator "-" and
checking each all-digit part is equivalent, since digits never contain "-".
A ValueError is the `.error` case. -/
def strptime_Y_m_d (s : String) : Except Unit Ymd :=
  match splitOnChar '-' s.toList with
  | [ys, ms, ds] =>
    if ys.length = 4 && ys.all Char.isDigit
        && 1 ≤ ms.length && ms.length ≤ 2 && ms.all Char.isDigit
        && 1 ≤ ds.length && ds.length ≤ 2 && ds.all Char.isDigit then
      let y := digitsToNat ys
      let m := digitsToNat ms
      let d := digitsToNat ds
      if 1 ≤ y && 1 ≤ m && m ≤ 12 && 1 ≤ d && d ≤ daysInMonth y m then
        Except.ok ⟨y, m, d⟩
      else Except.error ()
    else Except.error ()
  | _ => Except.error ()

/-- Embeds `_parse_release_date`: `None` or `""` is falsy and maps to None;
otherwise strptime is attempted and a ValueError is caught, yielding None. -/
def _parse_release_date (release_date_str : Option String) : Option Ymd :=
  match release_date_str with
  | none => none
  | some s =>
    if s = "" then none
    else
      match strptime_Y_m_d s with
      | Except.ok d => some d
      | Except.error _ => none

/-- models.FilmBase. -/
structure FilmBase where
  film_id : Int
  title : String
  release_date : Option Ymd := none
  type : FilmType
  status : WatchStatus
  watched_date : Option Ymd := none
deriving DecidableEq

/-- models.MetaData. -/
structure MetaData where
  imdb_id : Option String := none
  runtime : Option Int := none
  plot : Option String := none
  rating : Option Rat := none
  poster_url : Option String := none
deriving DecidableEq

/-- models.Genre, the {id, name} record the genres endpoint would return. -/
structure Genre where
  id : Int
  name : String
deriving DecidableEq

/-- A raw TMDB result item, restricted to the keys `_map_tmdb_to_filmbase`
reads.  `none` means the key is absent from the JSON object. -/
structure RawItem where
  id : Int
  title : Option String := none
  name : Option String := none
  release_date : Option String := none
  first_air_date : Option String := none
deriving DecidableEq

/-- Embeds `_map_tmdb_to_filmbase`: `title_key` is "title" for movies and
"name" for tv, `release_date_key` is "release_date" for movies and
"first_air_date" for tv; `item.get(title_key, "N/A")` defaults to "N/A" when
the key is absent. -/
def _map_tmdb_to_filmbase (item : RawItem) (media_type : MediaType) : FilmBase :=
  { film_id := item.id
    title := (match media_type with
      | MediaType.movie => item.title
      | MediaType.tv => item.name).getD "N/A"
    release_date := _parse_release_date (match media_type with
      | MediaType.movie => item.release_date
      | MediaType.tv => item.first_air_date)
    type := match media_type with
      | MediaType.movie => FilmType.movie
      | MediaType.tv => FilmType.series
    status := WatchStatus.planToWatch }

/-- The list-mapping step shared by `search`, `get_trending` and `discover`:
each raw item of `data["results"]` goes through `_map_tmdb_to_filmbase`. -/
def map_results (results : List RawItem) (media_type : MediaType) : List FilmBase :=
  results.map (fun item => _map_tmdb_to_filmbase item media_type)

/-- The module-level rate-limit state of tmdb_client.py:
RATE_LIMIT_REMAINING and RATE_LIMIT_RESET_TIME. -/
structure RateLimitState where
  remaining : Int
  reset_time : Int
deriving DecidableEq

/-- The rate-limit headers of a response; `none` when a header is absent
(in particular `httpx.Response(200)` carries neither header). -/
structure RateHeaders where
  x_ratelimit_remaining : Option Int := none
  x_ratelimit_reset : Option Int := none
deriving DecidableEq

/-- Embeds `_handle_rate_limit`: update the state from whichever headers are
present, then, if the remaining count is ≤ 1, wait `max 0 (reset_time - now)`
seconds (the `await asyncio.sleep` is modelled as the returned delay; a wait
of 0 and no sleep are the same delay).  Returns the new state and the delay. -/
def _handle_rate_limit (st : RateLimitState) (h : RateHeaders) (now : Int) :
    RateLimitState × Int :=
  let st1 : RateLimitState :=
    { remaining := h.x_ratelimit_remaining.getD st.remaining
      reset_time := h.x_ratelimit_reset.getD st.reset_time }
  (st1, if st1.remaining ≤ 1 then max 0 (st1.reset_time - now) else 0)

/-- The time at which `_make_request` issues the HTTP request: before the
request it runs `_handle_rate_limit(httpx.Response(200))` — a synthetic
response with no rate-limit headers — so the check uses the last-seen state,
and the request goes out after the computed delay. -/
def request_issue_time (st : RateLimitState) (now : Int) : Int :=
  now + (_handle_rate_limit st {} now).2

/-! ### src/db.py — the three sqlite tables

Each table is a list of rows in rowid (insertion) order.  Autoincrement ids
are not modelled: nothing in the code reads them, and rowid order is the list
order.  Note that sqlite's CHECK(col IN (...)) passes NULL and that foreign
keys are not enforced (sqlite's default PRAGMA foreign_keys = OFF), so the
type and status columns are nullable options and no referential check is
modelled.
-/

/-- A row of the Film table. -/
structure FilmRow where
  film_id : Int
  title : String
  release_date : Option Ymd
  type : Option FilmType
  status : Option WatchStatus
  watched_date : Option Ymd
deriving DecidableEq

/-- A row of the Meta table (meta_id omitted, see above). -/
structure MetaRow where
  film_id : Int
  imdb_id : Option String
  runtime : Option Int
  plot : Option String
  rating : Option Rat
  poster_url : Option String
deriving DecidableEq

/-- A row of the Genre table (genre_id omitted, see above). -/
structure GenreRow where
  film_id : Int
  name : String
deriving DecidableEq

/-- The sqlite database state. -/
structure DBState where
  film : List FilmRow
  meta : List MetaRow
  genre : List GenreRow
deriving DecidableEq

/-! ### src/routes.py — the watchlist route handlers -/

/-- `raise HTTPException(status_code, detail)`. -/
structure HTTPEx where
  status_code : Nat
  detail : String
deriving DecidableEq

/-- The Python exceptions that can reach the handler's except clauses.  A
remote-fetch failure is an `httpx.HTTPStatusError` (non-200 remote status) or
some other exception (transport failure); a duplicate-key INSERT raises
`sqlite3.IntegrityError`. -/
inductive PyError
  | integrityError (msg : String)
  | httpStatusError (code : Nat) (msg : String)
  | otherError (msg : String)
deriving DecidableEq

/-- The outcome of `await tmdb_client.get_details(media_type, tmdb_id)`:
either the (film_base, meta_data, genres_list) triple or a raised exception.
The network itself is not modelled; handlers take this outcome as input. -/
def FetchResult : Type :=
  Except PyError (FilmBase × MetaData × List String)

/-- The scalar subquery
`SELECT GROUP_CONCAT(g.name) FROM Genre g WHERE g.film_id = f.film_id`:
NULL over an empty group, otherwise the names joined with "," in rowid
order. -/
def group_concat (names : List String) : Option String :=
  match names with
  | [] => none
  | _ => some (String.mk (joinChar ',' (names.map String.toList)))

/-- The genre names attached to a film, in rowid order. -/
def genre_names_of (db : DBState) (i : Int) : List String :=
  (db.genre.filter (fun g => g.film_id == i)).map GenreRow.name

/-- The handler's post-processing of the concatenated genre column:
`genre_names_str.split(",") if genre_names_str else None` — NULL and the
empty string are falsy and give None, anything else is comma-split. -/
def genres_from_concat (genre_names_str : Option String) : Option (List String) :=
  match genre_names_str with
  | none => none
  | some s => if s = "" then none else some (pySplitComma s)

/-- The response model WatchlistItem of routes.py: FilmBase plus the Meta
columns and the aggregated genre list.  (Pydantic would reject a NULL title,
type or status; rows created by this code always populate them.) -/
structure WatchlistItem where
  film_id : Int
  title : String
  release_date : Option Ymd
  type : Option FilmType
  status : Option WatchStatus
  watched_date : Option Ymd
  imdb_id : Option String
  runtime : Option Int
  plot : Option String
  rating : Option Rat
  poster_url : Option String
  genres : Option (List String)
deriving DecidableEq

/-- One output row of the SELECT, assembled into a WatchlistItem: Film
columns from `f`, Meta columns NULL when the LEFT JOIN found no Meta row,
and the split genre list. -/
def build_watchlist_item (f : FilmRow) (m : Option MetaRow) (gconcat : Option String) :
    WatchlistItem :=
  { film_id := f.film_id
    title := f.title
    release_date := f.release_date
    type := f.type
    status := f.status
    watched_date := f.watched_date
    imdb_id := m.bind MetaRow.imdb_id
    runtime := m.bind MetaRow.runtime
    plot := m.bind MetaRow.plot
    rating := m.bind MetaRow.rating
    poster_url := m.bind MetaRow.poster_url
    genres := genres_from_concat gconcat }

/-- `LEFT JOIN Meta m ON f.film_id = m.film_id`: one joined row per matching
Meta row, or a single row with NULL Meta columns when none matches. -/
def left_join_meta (db : DBState) (f : FilmRow) : List (Option MetaRow) :=
  match db.meta.filter (fun m => m.film_id == f.film_id) with
  | [] => [none]
  | ms => ms.map some

/-- The joined SELECT rows contributed by one Film row. -/
def film_items (db : DBState) (f : FilmRow) : List WatchlistItem :=
  (left_join_meta db f).map (fun m =>
    build_watchlist_item f m (group_concat (genre_names_of db f.film_id)))

/-- Embeds GET /watchlist (`get_watchlist`): the Film LEFT JOIN Meta query
with the GROUP_CONCAT genre subquery, one WatchlistItem per joined row. -/
def get_watchlist (db : DBState) : List WatchlistItem :=
  db.film.flatMap (film_items db)

/-- The same joined SELECT restricted by `WHERE f.film_id = ?` followed by
`fetchone()`: the first joined row for that film, if any. -/
def select_watchlist_row (db : DBState) (film_id : Int) : Option WatchlistItem :=
  match (db.film.filter (fun f => f.film_id == film_id)).flatMap (film_items db) with
  | [] => none
  | it :: _ => some it

/-- The VALUES tuple of the `INSERT INTO Film` statement of add_to_watchlist:
status defaults to PlanToWatch and watched_date to NULL regardless of any
upstream value. -/
def film_row_of (film_base : FilmBase) : FilmRow :=
  { film_id := film_base.film_id
    title := film_base.title
    release_date := film_base.release_date
    type := some film_base.type
    status := some WatchStatus.planToWatch
    watched_date := none }

/-- The VALUES tuple of the `INSERT INTO Meta` statement of add_to_watchlist. -/
def meta_row_of (film_base : FilmBase) (meta_data : MetaData) : MetaRow :=
  { film_id := film_base.film_id
    imdb_id := meta_data.imdb_id
    runtime := meta_data.runtime
    plot := meta_data.plot
    rating := meta_data.rating
    poster_url := meta_data.poster_url }

/-- The Genre rows inserted by the per-genre INSERT loop of add_to_watchlist. -/
def genre_rows_of (film_base : FilmBase) (genres_list : List String) : List GenreRow :=
  genres_list.map (fun g => { film_id := film_base.film_id, name := g })

/-- Embeds POST /watchlist (`add_to_watchlist`).  The remote fetch outcome is
the `fetch` argument.  Inside the try block: INSERT the Film row (a duplicate
film_id violates the Film PRIMARY KEY and raises sqlite3.IntegrityError on
the spot), INSERT the Meta row, INSERT one Genre row per genre name, then
commit.  Any exception triggers `db.rollback()` — the returned state is the
one the handler was called with — and is mapped to 409 for IntegrityError and
500 for everything else (including a failed remote fetch: the handler has no
separate `except httpx.HTTPStatusError` clause). -/
def add_to_watchlist (film_id : Int) (fetch : FetchResult) (db : DBState) :
    DBState × Except HTTPEx FilmBase :=
  match fetch with
  | Except.error e =>
    match e with
    | PyError.integrityError _ =>
      (db, Except.error ⟨409, "Film with ID " ++ toString film_id ++ " already in watchlist"⟩)
    | PyError.httpStatusError _ m =>
      (db, Except.error ⟨500, "Database error: " ++ m⟩)
    | PyError.otherError m =>
      (db, Except.error ⟨500, "Database error: " ++ m⟩)
  | Except.ok (film_base, meta_data, genres_list) =>
    if db.film.any (fun r => r.film_id == film_base.film_id) then
      (db, Except.error ⟨409, "Film with ID " ++ toString film_id ++ " already in watchlist"⟩)
    else
      ({ film := db.film ++ [film_row_of film_base]
         meta := db.meta ++ [meta_row_of film_base meta_data]
         genre := db.genre ++ genre_rows_of film_base genres_list },
       Except.ok film_base)

/-- The PATCH body WatchlistUpdate.  The outer Option is pydantic's
fields-set tracking (`model_dump(exclude_unset=True)`): `none` means the
field was omitted from the patch; `some v` means it was supplied, where the
inner option is the supplied value (explicit JSON null included). -/
structure WatchlistUpdate where
  status : Option (Option WatchStatus) := none
  watched_date : Option (Option Ymd) := none
deriving DecidableEq

/-- The `UPDATE Film SET ... WHERE film_id = ?` applied to one row: each
supplied field is written (possibly to NULL), each omitted field is left
untouched. -/
def apply_update (u : WatchlistUpdate) (r : FilmRow) : FilmRow :=
  { r with
    status := match u.status with
      | none => r.status
      | some v => v
    watched_date := match u.watched_date with
      | none => r.watched_date
      | some v => v }

/-- Embeds PATCH /watchlist/{film_id} (`update_watchlist_item`): 404 when no
Film row has that id; 400 when `model_dump(exclude_unset=True)` is empty;
otherwise UPDATE the supplied fields of the matching Film rows, commit, and
re-select the joined row to build the response (the re-select runs after the
commit, so its theoretical not-found branch would still keep the update). -/
def update_watchlist_item (film_id : Int) (update_data : WatchlistUpdate) (db : DBState) :
    DBState × Except HTTPEx WatchlistItem :=
  if ¬ db.film.any (fun r => r.film_id == film_id) then
    (db, Except.error ⟨404, "Film with ID " ++ toString film_id ++ " not found in watchlist"⟩)
  else if update_data.status = none ∧ update_data.watched_date = none then
    (db, Except.error ⟨400, "No fields to update"⟩)
  else
    let db1 : DBState :=
      { db with
        film := db.film.map (fun r =>
          if r.film_id == film_id then apply_update update_data r else r) }
    match select_watchlist_row db1 film_id with
    | none => (db1, Except.error ⟨404, "Updated film not found, this should not happen."⟩)
    | some it => (db1, Except.ok it)

/-- Embeds DELETE /watchlist/{film_id} (`delete_watchlist_item`).  The
existence check precedes the try block and 404s without touching anything.
Inside the try block the three DELETEs run (Genre, then Meta, then Film; the
`fault` argument injects an exception raised during the block, e.g. a storage
fault, which rolls the whole operation back to the incoming state and maps to
500).  `cursor.rowcount` after the final DELETE is the number of Film rows
removed; it cannot be 0 here because the existence check passed, but the
branch is embedded as written. -/
def delete_watchlist_item (film_id : Int) (fault : Option String) (db : DBState) :
    DBState × Except HTTPEx Unit :=
  if ¬ db.film.any (fun r => r.film_id == film_id) then
    (db, Except.error ⟨404, "Film with ID " ++ toString film_id ++ " not found in watchlist"⟩)
  else
    match fault with
    | some m => (db, Except.error ⟨500, "Database error: " ++ m⟩)
    | none =>
      let rowcount := (db.film.filter (fun r => r.film_id == film_id)).length
      if rowcount = 0 then
        (db, Except.error ⟨404,
          "Film with ID " ++ toString film_id ++ " not found in watchlist for deletion."⟩)
      else
        ({ film := db.film.filter (fun r => r.film_id != film_id)
           meta := db.meta.filter (fun m => m.film_id != film_id)
           genre := db.genre.filter (fun g => g.film_id != film_id) },
         Except.ok ())

/-- The module-level names defined in src/tmdb_client.py.  Transcribed from
the source: the module defines no `get_genres`, although
routes.py's genres handler calls `tmdb_client.get_genres(media_type=type)`. -/
def tmdb_client_defined_names : List String :=
  ["TMDBSettings", "settings", "RATE_LIMIT_REMAINING", "RATE_LIMIT_RESET_TIME",
   "_handle_rate_limit", "_make_request", "_parse_release_date",
   "_map_tmdb_to_filmbase", "search", "get_details", "get_trending", "discover"]

/-- Python attribute lookup on the tmdb_client module: the name resolves only
if the module defines it, otherwise an AttributeError is raised. -/
def module_getattr (defined : List String) (attr : String) : Option String :=
  if attr ∈ defined then some attr else none

/-- Embeds GET /genres/{type} (`get_tmdb_genres`): the handler evaluates
`tmdb_client.get_genres`, an attribute lookup that raises AttributeError
because tmdb_client.py defines no such function.  AttributeError is not an
httpx.HTTPStatusError, so the generic `except Exception` clause maps it to
500.  The success arm can never be taken (there is no callee to embed); see
`genres_route_returns_500`. -/
def get_tmdb_genres_route (_t : MediaType) : Except HTTPEx (List Genre) :=
  match module_getattr tmdb_client_defined_names "get_genres" with
  | some _ => Except.ok []
  | none => Except.error
      ⟨500, "An unexpected error occurred: module tmdb_client has no attribute get_genres"⟩

/-! ### Sample values used by the concrete witnesses -/

def sampleFilm : FilmBase :=
  { film_id := 603, title := "The Matrix", release_date := some ⟨1999, 3, 31⟩,
    type := FilmType.movie, status := WatchStatus.planToWatch }

def sampleMeta : MetaData :=
  { imdb_id := some "tt0133093", runtime := some 136 }

/-- The Film row `add_to_watchlist` writes for `sampleFilm`. -/
def sampleFilmRow : FilmRow :=
  { film_id := 603, title := "The Matrix", release_date := some ⟨1999, 3, 31⟩,
    type := some FilmType.movie, status := some WatchStatus.planToWatch,
    watched_date := none }

def emptyDB : DBState :=
  { film := [], meta := [], genre := [] }

/-- The store after adding `sampleFilm` with two genres to an empty store. -/
def dupDB : DBState :=
  { film := [film_row_of sampleFilm]
    meta := [meta_row_of sampleFilm sampleMeta]
    genre := genre_rows_of sampleFilm ["Action", "Sci-Fi"] }

/-- A store holding `sampleFilm` with one Meta row and three Genre rows. -/
def delDB : DBState :=
  { film := [film_row_of sampleFilm]
    meta := [meta_row_of sampleFilm sampleMeta]
    genre := genre_rows_of sampleFilm ["Action", "Drama", "War"] }

/-- The `sampleFilm` row with its status moved to Watching. -/
def watchingRow : FilmRow :=
  { film_id := 603, title := "The Matrix", release_date := some ⟨1999, 3, 31⟩,
    type := some FilmType.movie, status := some WatchStatus.watching,
    watched_date := none }

/-- A store whose film is currently being watched. -/
def updDB : DBState :=
  { film := [watchingRow]
    meta := [meta_row_of sampleFilm sampleMeta]
    genre := genre_rows_of sampleFilm ["Action"] }

/-!  Theorems about the remote-metadata client (claims C7, C8, C9, C10). -/

/-- C7: normalization with media type "movie" reads the title from the "title"
field and the date from "release_date" and yields media_type movie, while
"tv" reads "name" and "first_air_date" and yields series; in particular
{title:"Dune", release_date:"2021-10-22"} normalizes to
{title:"Dune", release_date: 2021-10-22, media_type: movie} and
{name:"The Wire", first_air_date:"2002-06-09"} normalizes to
{title:"The Wire", release_date: 2002-06-09, media_type: series}. -/
theorem media_type_field_mapping :
    (∀ item : RawItem,
      (_map_tmdb_to_filmbase item MediaType.movie).title = item.title.getD "N/A" ∧
      (_map_tmdb_to_filmbase item MediaType.movie).release_date
        = _parse_release_date item.release_date ∧
      (_map_tmdb_to_filmbase item MediaType.movie).type = FilmType.movie ∧
      (_map_tmdb_to_filmbase item MediaType.tv).title = item.name.getD "N/A" ∧
      (_map_tmdb_to_filmbase item MediaType.tv).release_date
        = _parse_release_date item.first_air_date ∧
      (_map_tmdb_to_filmbase item MediaType.tv).type = FilmType.series) ∧
    _map_tmdb_to_filmbase
        { id := 438631, title := some "Dune", release_date := some "2021-10-22" }
        MediaType.movie
      = { film_id := 438631, title := "Dune", release_date := some ⟨2021, 10, 22⟩,
          type := FilmType.movie, status := WatchStatus.planToWatch } ∧
    _map_tmdb_to_filmbase
        { id := 1438, name := some "The Wire", first_air_date := some "2002-06-09" }
        MediaType.tv
      = { film_id := 1438, title := "The Wire", release_date := some ⟨2002, 6, 9⟩,
          type := FilmType.series, status := WatchStatus.planToWatch } :=
  ⟨fun _ => ⟨rfl, rfl, rfl, rfl, rfl, rfl⟩, by decide, by decide⟩

/-- C8: date parsing is total — a missing (None), empty, or unparsable
release-date string normalizes to "no date" (none) instead of raising: the
ValueError of strptime is caught inside `_parse_release_date`, so a malformed
date never fails the enclosing search or details fetch. -/
theorem date_parsing_total (x : Option String)
    (h : x = none ∨ x = some "" ∨ ∃ s, x = some s ∧ strptime_Y_m_d s = Except.error ()) :
    _parse_release_date x = none := by
  rcases h with h | h | ⟨s, hx, hs⟩ <;> subst_vars
  · rfl
  · rfl
  · by_cases he : s = ""
    · simp [_parse_release_date, he]
    · simp [_parse_release_date, he, hs]

/-- Witness for C8 at two concrete unparsable inputs. -/
theorem date_parsing_total_witness :
    _parse_release_date (some "") = none ∧
    _parse_release_date (some "released in 2021") = none :=
  ⟨date_parsing_total (some "") (Or.inr (Or.inl rfl)),
   date_parsing_total (some "released in 2021")
     (Or.inr (Or.inr ⟨"released in 2021", rfl, rfl⟩))⟩

/-- C9: with the last-seen remaining count at or below 1 and the last-seen
reset time in the future, the request of the next client call is not issued
before the reset time; with the count above the threshold or the reset time
already passed, no delay occurs. -/
theorem rate_limit_throttle (st : RateLimitState) (now : Int) :
    (st.remaining ≤ 1 → now < st.reset_time → st.reset_time ≤ request_issue_time st now) ∧
    ((1 < st.remaining ∨ st.reset_time ≤ now) → request_issue_time st now = now) := by
  unfold request_issue_time _handle_rate_limit
  constructor
  · intro h1 h2
    simp only [Option.getD_none]
    split <;> omega
  · intro h
    simp only [Option.getD_none]
    split <;> omega

/-- Witness for C9: remaining = 1 and reset 5 seconds ahead delays the request
until the reset time; remaining = 30 issues it immediately. -/
theorem rate_limit_throttle_witness :
    (105 : Int) ≤ request_issue_time ⟨1, 105⟩ 100 ∧
    request_issue_time ⟨30, 105⟩ 100 = 100 :=
  ⟨(rate_limit_throttle ⟨1, 105⟩ 100).1 (by decide) (by decide),
   (rate_limit_throttle ⟨30, 105⟩ 100).2 (Or.inl (by decide))⟩

/-- C10 (implicit): a raw item missing its title field ("title" for movies,
"name" for tv) normalizes without failing and without an empty title — the
literal "N/A" is substituted.  All of search, details, trending and discover
build their films through `_map_tmdb_to_filmbase` (see `map_results`), so
their normalized films have a non-empty title even when the payload has
none. -/
theorem missing_title_maps_to_na (item : RawItem) (mt : MediaType)
    (h : (match mt with
          | MediaType.movie => item.title
          | MediaType.tv => item.name) = none) :
    (_map_tmdb_to_filmbase item mt).title = "N/A" ∧
    (_map_tmdb_to_filmbase item mt).title ≠ "" := by
  cases mt <;> simp_all [_map_tmdb_to_filmbase]

/-- Witness for C10: an item carrying only an id. -/
theorem missing_title_maps_to_na_witness :
    (_map_tmdb_to_filmbase { id := 42 } MediaType.movie).title = "N/A" ∧
    (_map_tmdb_to_filmbase { id := 42 } MediaType.movie).title ≠ "" :=
  missing_title_maps_to_na { id := 42 } MediaType.movie rfl

/-! ### Helper lemmas about the split/join pair and the joined SELECT -/

theorem splitOnChar_ne_nil (sep : Char) (l : List Char) : splitOnChar sep l ≠ [] := by
  cases l with
  | nil => simp [splitOnChar]
  | cons c cs =>
    simp only [splitOnChar]
    split
    · simp
    · split <;> simp

theorem splitOnChar_not_mem (sep : Char) (l : List Char) (h : sep ∉ l) :
    splitOnChar sep l = [l] := by
  induction l with
  | nil => rfl
  | cons c cs ih =>
    have hc : ¬ c = sep := fun e => h (e ▸ List.mem_cons_self c cs)
    have hcs : sep ∉ cs := fun m => h (List.mem_cons_of_mem _ m)
    simp only [splitOnChar, if_neg hc, ih hcs]

theorem splitOnChar_append (sep : Char) (l rest : List Char) (h : sep ∉ l) :
    splitOnChar sep (l ++ sep :: rest) = l :: splitOnChar sep rest := by
  induction l with
  | nil => simp [splitOnChar]
  | cons c cs ih =>
    have hc : ¬ c = sep := fun e => h (e ▸ List.mem_cons_self c cs)
    have hcs : sep ∉ cs := fun m => h (List.mem_cons_of_mem _ m)
    show splitOnChar sep (c :: (cs ++ sep :: rest)) = _
    simp only [splitOnChar, if_neg hc, ih hcs]

theorem splitOnChar_joinChar (sep : Char) (ls : List (List Char)) (hne : ls ≠ [])
    (hall : ∀ l ∈ ls, sep ∉ l) :
    splitOnChar sep (joinChar sep ls) = ls := by
  induction ls with
  | nil => exact absurd rfl hne
  | cons l ls ih =>
    cases ls with
    | nil => exact splitOnChar_not_mem sep l (hall l (List.mem_cons_self l []))
    | cons l' ls' =>
      have h1 : sep ∉ l := hall l (List.mem_cons_self l _)
      have h2 : ∀ x ∈ l' :: ls', sep ∉ x := fun x hx => hall x (List.mem_cons_of_mem _ hx)
      simp only [joinChar, splitOnChar_append sep l _ h1,
        ih (List.cons_ne_nil l' ls') h2]

theorem joinChar_cons_ne_nil (sep : Char) (l : List Char) (ls : List (List Char))
    (h : l ≠ []) : joinChar sep (l :: ls) ≠ [] := by
  cases ls <;> simp [joinChar, h]

/-- Round trip of the genre aggregation: joining nonempty, comma-free,
nonempty-listed names with "," and splitting again recovers the names. -/
theorem genres_concat_round_trip (g : String) (gs : List String)
    (hnames : ∀ x ∈ g :: gs, x ≠ "" ∧ ',' ∉ x.toList) :
    genres_from_concat (group_concat (g :: gs)) = some (g :: gs) := by
  have hg : g.toList ≠ [] := by
    intro h0
    exact (hnames g (List.mem_cons_self g gs)).1 (congrArg String.mk h0)
  have hjoin : joinChar ',' ((g :: gs).map String.toList) ≠ [] := by
    simpa using joinChar_cons_ne_nil ',' g.toList (gs.map String.toList) hg
  have hmk : String.mk (joinChar ',' ((g :: gs).map String.toList)) ≠ "" := by
    intro h0
    exact hjoin (congrArg String.toList h0)
  have hsplit : splitOnChar ',' (joinChar ',' ((g :: gs).map String.toList))
      = (g :: gs).map String.toList := by
    refine splitOnChar_joinChar ',' _ (by simp) ?_
    intro l hl
    obtain ⟨x, hx, rfl⟩ := List.mem_map.mp hl
    exact (hnames x hx).2
  simp only [group_concat, genres_from_concat, if_neg hmk, pySplitComma]
  rw [show (String.mk (joinChar ',' ((g :: gs).map String.toList))).toList
        = joinChar ',' ((g :: gs).map String.toList) from rfl,
      hsplit, List.map_map]
  congr 1
  refine (List.map_congr_left fun x _ => rfl).trans (List.map_id _)

/-- Every joined row contributed by a Film row carries that row's Film
columns. -/
theorem film_items_fields (db : DBState) (f : FilmRow) (it : WatchlistItem)
    (h : it ∈ film_items db f) :
    it.film_id = f.film_id ∧ it.status = f.status ∧ it.watched_date = f.watched_date := by
  unfold film_items at h
  obtain ⟨m, _, rfl⟩ := List.mem_map.mp h
  exact ⟨rfl, rfl, rfl⟩

/-- A Film row always contributes at least one joined row (the LEFT JOIN
yields a NULL-Meta row when no Meta row matches). -/
theorem film_items_first (db : DBState) (f : FilmRow) :
    ∃ it rest, film_items db f = it :: rest ∧ it.film_id = f.film_id ∧
      it.status = f.status ∧ it.watched_date = f.watched_date := by
  unfold film_items left_join_meta
  cases h : db.meta.filter (fun m => m.film_id == f.film_id) with
  | nil => exact ⟨_, _, rfl, rfl, rfl, rfl⟩
  | cons m ms => exact ⟨_, _, rfl, rfl, rfl, rfl⟩

/-- With exactly one matching Meta row the LEFT JOIN yields exactly one
joined row. -/
theorem film_items_meta_single (db : DBState) (f : FilmRow) (mr : MetaRow)
    (h : db.meta.filter (fun m => m.film_id == f.film_id) = [mr]) :
    film_items db f
      = [build_watchlist_item f (some mr) (group_concat (genre_names_of db f.film_id))] := by
  unfold film_items left_join_meta
  rw [h]
  rfl

/-- Films whose id differs from `i` contribute no joined row with film_id `i`. -/
theorem filter_flatMap_items_nil (db' : DBState) (i : Int) (l : List FilmRow)
    (h : l.all (fun x => x.film_id != i) = true) :
    (l.flatMap (film_items db')).filter (fun it => it.film_id == i) = [] := by
  rw [List.filter_eq_nil_iff]
  intro it hit
  obtain ⟨f, hf, hmem⟩ := List.mem_flatMap.mp hit
  have h1 := (film_items_fields db' f it hmem).1
  have h2 := List.all_eq_true.mp h f hf
  rw [bne_iff_ne] at h2
  simp [h1, h2]

theorem any_eq_false_of_all_ne {α : Type} (f : α → Int) (l : List α) (i : Int)
    (h : l.all (fun x => f x != i) = true) :
    l.any (fun x => f x == i) = false := by
  rw [List.any_eq_false]
  intro x hx
  have h2 := List.all_eq_true.mp h x hx
  rw [bne_iff_ne] at h2
  simp [h2]

theorem filter_eq_nil_of_all_ne {α : Type} (f : α → Int) (l : List α) (i : Int)
    (h : l.all (fun x => f x != i) = true) :
    l.filter (fun x => f x == i) = [] := by
  rw [List.filter_eq_nil_iff]
  intro x hx
  have h2 := List.all_eq_true.mp h x hx
  rw [bne_iff_ne] at h2
  simp [h2]

/-! ### Claims about the watchlist store (C1, C2, C3, C5, C6) and the genres
route (C4) -/

/-- C1: inserting a film_id already present fails with Conflict (HTTP 409)
and leaves no partial state: after a successful add of a fresh id, a second
add of the same film_id (whatever the second fetch returned) errors with 409
and returns the store unchanged, and the store after the first add contains
exactly one Film row, one Meta row and one set of Genre rows for that id. -/
theorem add_duplicate_conflict (db db1 : DBState) (i : Int)
    (fb fb' : FilmBase) (md md' : MetaData) (gs gs' : List String)
    (r1 : Except HTTPEx FilmBase)
    (hfb : fb.film_id = i) (hfb' : fb'.film_id = i)
    (hfilm : db.film.all (fun x => x.film_id != i) = true)
    (hmeta : db.meta.all (fun m => m.film_id != i) = true)
    (hgenre : db.genre.all (fun x => x.film_id != i) = true)
    (h1 : add_to_watchlist i (Except.ok (fb, md, gs)) db = (db1, r1)) :
    r1 = Except.ok fb ∧
    add_to_watchlist i (Except.ok (fb', md', gs')) db1
      = (db1, Except.error ⟨409, "Film with ID " ++ toString i ++ " already in watchlist"⟩) ∧
    db1.film.filter (fun x => x.film_id == i) = [film_row_of fb] ∧
    db1.meta.filter (fun m => m.film_id == i) = [meta_row_of fb md] ∧
    db1.genre.filter (fun x => x.film_id == i) = genre_rows_of fb gs := by
  subst hfb
  have hany : db.film.any (fun x => x.film_id == fb.film_id) = false :=
    any_eq_false_of_all_ne (fun x => x.film_id) db.film fb.film_id hfilm
  simp only [add_to_watchlist, hany, Bool.false_eq_true, if_false] at h1
  have h1' := h1.symm
  rw [Prod.mk.injEq] at h1'
  obtain ⟨hdb1, hr1⟩ := h1'
  subst hdb1
  refine ⟨hr1, ?_, ?_, ?_, ?_⟩
  · have hany2 : (db.film ++ [film_row_of fb]).any (fun x => x.film_id == fb'.film_id)
        = true := by
      rw [List.any_eq_true]
      exact ⟨film_row_of fb, List.mem_append_right _ (List.mem_cons_self _ _),
        by simp [film_row_of, hfb']⟩
    simp only [add_to_watchlist, hany2, if_true]
  · rw [List.filter_append,
      filter_eq_nil_of_all_ne (fun x => x.film_id) db.film fb.film_id hfilm]
    simp [film_row_of]
  · rw [List.filter_append,
      filter_eq_nil_of_all_ne (fun m => m.film_id) db.meta fb.film_id hmeta]
    simp [meta_row_of]
  · rw [List.filter_append,
      filter_eq_nil_of_all_ne (fun x => x.film_id) db.genre fb.film_id hgenre]
    rw [List.nil_append, List.filter_eq_self]
    intro a ha
    unfold genre_rows_of at ha
    obtain ⟨g, _, rfl⟩ := List.mem_map.mp ha
    simp

/-- Witness for C1: adding The Matrix twice to an empty store. -/
theorem add_duplicate_conflict_witness :
    (Except.ok sampleFilm : Except HTTPEx FilmBase) = Except.ok sampleFilm ∧
    add_to_watchlist 603 (Except.ok (sampleFilm, sampleMeta, ["Action", "Sci-Fi"])) dupDB
      = (dupDB, Except.error
          ⟨409, "Film with ID " ++ toString (603 : Int) ++ " already in watchlist"⟩) ∧
    dupDB.film.filter (fun x => x.film_id == 603) = [film_row_of sampleFilm] ∧
    dupDB.meta.filter (fun m => m.film_id == 603) = [meta_row_of sampleFilm sampleMeta] ∧
    dupDB.genre.filter (fun x => x.film_id == 603)
      = genre_rows_of sampleFilm ["Action", "Sci-Fi"] :=
  add_duplicate_conflict emptyDB dupDB 603 sampleFilm sampleFilm sampleMeta sampleMeta
    ["Action", "Sci-Fi"] ["Action", "Sci-Fi"] (Except.ok sampleFilm)
    rfl rfl rfl rfl rfl rfl

/-- C2: delete is all-or-nothing.  An absent film_id fails with NotFound
(404) — with or without an injected fault — and changes no row; a present
film_id with one Film row, one Meta row and N Genre rows has all N+2 rows
removed; an exception during the try block (the injected fault) rolls the
whole operation back, leaving no rows deleted. -/
theorem delete_all_or_nothing (db : DBState) (i : Int) (n : Nat) (msg : String) :
    (db.film.all (fun x => x.film_id != i) = true →
      delete_watchlist_item i none db
        = (db, Except.error
            ⟨404, "Film with ID " ++ toString i ++ " not found in watchlist"⟩) ∧
      delete_watchlist_item i (some msg) db
        = (db, Except.error
            ⟨404, "Film with ID " ++ toString i ++ " not found in watchlist"⟩)) ∧
    (db.film.any (fun x => x.film_id == i) = true →
      delete_watchlist_item i (some msg) db
        = (db, Except.error ⟨500, "Database error: " ++ msg⟩)) ∧
    ((db.film.filter (fun x => x.film_id == i)).length = 1 →
     (db.meta.filter (fun m => m.film_id == i)).length = 1 →
     (db.genre.filter (fun x => x.film_id == i)).length = n →
      delete_watchlist_item i none db
        = ({ film := db.film.filter (fun x => x.film_id != i)
             meta := db.meta.filter (fun m => m.film_id != i)
             genre := db.genre.filter (fun x => x.film_id != i) },
           Except.ok ()) ∧
      db.film.length + db.meta.length + db.genre.length
        = ((db.film.filter (fun x => x.film_id != i)).length
            + (db.meta.filter (fun m => m.film_id != i)).length
            + (db.genre.filter (fun x => x.film_id != i)).length) + (n + 2)) := by
  refine ⟨?_, ?_, ?_⟩
  · intro hall
    have hany : db.film.any (fun x => x.film_id == i) = false :=
      any_eq_false_of_all_ne (fun x => x.film_id) db.film i hall
    constructor <;> simp [delete_watchlist_item, hany]
  · intro hany
    simp [delete_watchlist_item, hany]
  · intro hf hm hg
    have hany : db.film.any (fun x => x.film_id == i) = true := by
      rw [List.any_eq_true]
      have hpos : 0 < (db.film.filter (fun x => x.film_id == i)).length := by omega
      obtain ⟨x, hx⟩ := List.exists_mem_of_length_pos hpos
      obtain ⟨hx1, hx2⟩ := List.mem_filter.mp hx
      exact ⟨x, hx1, hx2⟩
    have ef : db.film.length
        = (db.film.filter (fun x => x.film_id == i)).length
          + (db.film.filter (fun x => x.film_id != i)).length :=
      List.length_eq_length_filter_add _
    have em : db.meta.length
        = (db.meta.filter (fun m => m.film_id == i)).length
          + (db.meta.filter (fun m => m.film_id != i)).length :=
      List.length_eq_length_filter_add _
    have eg : db.genre.length
        = (db.genre.filter (fun x => x.film_id == i)).length
          + (db.genre.filter (fun x => x.film_id != i)).length :=
      List.length_eq_length_filter_add _
    refine ⟨?_, by omega⟩
    simp [delete_watchlist_item, hany, hf]

/-- Witness for C2: deleting id 999 from an empty store 404s and changes
nothing; deleting id 603 from a store with one Meta and three Genre rows
succeeds and empties all three tables (5 = 3 + 2 rows removed); an injected
storage fault rolls the delete back. -/
theorem delete_all_or_nothing_witness :
    (delete_watchlist_item 999 none emptyDB
      = (emptyDB, Except.error
          ⟨404, "Film with ID " ++ toString (999 : Int) ++ " not found in watchlist"⟩)) ∧
    (delete_watchlist_item 603 (some "disk full") delDB
      = (delDB, Except.error ⟨500, "Database error: disk full"⟩)) ∧
    (delete_watchlist_item 603 none delDB
      = ({ film := [], meta := [], genre := [] }, Except.ok ())) ∧
    delDB.film.length + delDB.meta.length + delDB.genre.length = (0 + 0 + 0) + (3 + 2) := by
  have h404 := (delete_all_or_nothing emptyDB 999 0 "x").1 (by decide)
  have h500 := (delete_all_or_nothing delDB 603 3 "disk full").2.1 (by decide)
  have hok := (delete_all_or_nothing delDB 603 3 "disk full").2.2 rfl rfl rfl
  exact ⟨h404.1, h500, hok.1, hok.2⟩

/-- C3: updatePartial modifies only the supplied fields.  With the Film row
for `i` at status Watching, a patch supplying only watched_date = d leaves
every other Film column (and the Meta and Genre tables) untouched and sets
watched_date, and the returned entry still has status Watching and
watched_date = d; a patch explicitly clearing watched_date (supplied null)
writes NULL, while the empty patch — both fields omitted — is rejected with
400, so an omitted field is treated differently from an explicitly null
one. -/
theorem partial_update_preserves (db : DBState) (i : Int) (A B : List FilmRow)
    (r : FilmRow) (d : Ymd)
    (hdb : db.film = A ++ r :: B)
    (hA : A.all (fun x => x.film_id != i) = true)
    (hB : B.all (fun x => x.film_id != i) = true)
    (hr : r.film_id = i)
    (hst : r.status = some WatchStatus.watching) :
    (update_watchlist_item i { watched_date := some (some d) } db).1
        = { db with film := A ++ { r with watched_date := some d } :: B } ∧
    (∃ it, (update_watchlist_item i { watched_date := some (some d) } db).2
        = Except.ok it ∧
      it.status = some WatchStatus.watching ∧ it.watched_date = some d) ∧
    (update_watchlist_item i { watched_date := some none } db).1
        = { db with film := A ++ { r with watched_date := none } :: B } ∧
    update_watchlist_item i {} db = (db, Except.error ⟨400, "No fields to update"⟩) := by
  subst hr
  have hrmem : r ∈ db.film := by
    rw [hdb]; exact List.mem_append_right _ (List.mem_cons_self _ _)
  have hany : db.film.any (fun x => x.film_id == r.film_id) = true :=
    List.any_eq_true.mpr ⟨r, hrmem, by simp⟩
  have hmapA : ∀ u : WatchlistUpdate, A.map
      (fun x => if x.film_id == r.film_id then apply_update u x else x) = A := by
    intro u
    refine (List.map_congr_left ?_).trans (List.map_id A)
    intro x hx
    have h2 := List.all_eq_true.mp hA x hx
    rw [bne_iff_ne] at h2
    simp [h2]
  have hmapB : ∀ u : WatchlistUpdate, B.map
      (fun x => if x.film_id == r.film_id then apply_update u x else x) = B := by
    intro u
    refine (List.map_congr_left ?_).trans (List.map_id B)
    intro x hx
    have h2 := List.all_eq_true.mp hB x hx
    rw [bne_iff_ne] at h2
    simp [h2]
  have hfilmmap : ∀ u : WatchlistUpdate, db.film.map
      (fun x => if x.film_id == r.film_id then apply_update u x else x)
      = A ++ apply_update u r :: B := by
    intro u
    rw [hdb, List.map_append, List.map_cons, hmapA u, hmapB u]
    simp
  refine ⟨?_, ?_, ?_, ?_⟩
  · simp only [update_watchlist_item, hany, if_true]
    simp only [hfilmmap]
    rw [if_neg (by simp), if_neg (by simp)]
    split <;> rfl
  · -- the re-selected joined row keeps the untouched status and the new date
    have hfilt : (A ++ apply_update { watched_date := some (some d) } r :: B).filter
        (fun x => x.film_id == r.film_id) = [apply_update { watched_date := some (some d) } r] := by
      rw [List.filter_append,
        filter_eq_nil_of_all_ne (fun x => x.film_id) A r.film_id hA]
      rw [List.nil_append, List.filter_cons]
      have : (apply_update { watched_date := some (some d) } r).film_id = r.film_id := rfl
      rw [filter_eq_nil_of_all_ne (fun x => x.film_id) B r.film_id hB]
      simp [this]
    simp only [update_watchlist_item, hany, if_true]
    simp only [hfilmmap]
    simp only [select_watchlist_row, hfilt]
    obtain ⟨it, rest, heq, hid, hstat, hwd⟩ :=
      film_items_first
        { db with film := A ++ apply_update { watched_date := some (some d) } r :: B }
        (apply_update { watched_date := some (some d) } r)
    rw [List.flatMap_cons]
    rw [heq]
    refine ⟨it, by simp, ?_, ?_⟩
    · rw [hstat]; exact hst
    · rw [hwd]; rfl
  · simp only [update_watchlist_item, hany, if_true]
    simp only [hfilmmap]
    rw [if_neg (by simp), if_neg (by simp)]
    split <;> rfl
  · simp [update_watchlist_item, hany]

/-- Witness for C3: patching only the watched date of a film being watched. -/
theorem partial_update_preserves_witness :
    (update_watchlist_item 603 { watched_date := some (some ⟨2024, 1, 15⟩) } updDB).1
        = { updDB with
            film := [] ++ { watchingRow with watched_date := some ⟨2024, 1, 15⟩ } :: [] } ∧
    (∃ it, (update_watchlist_item 603 { watched_date := some (some ⟨2024, 1, 15⟩) } updDB).2
        = Except.ok it ∧
      it.status = some WatchStatus.watching ∧ it.watched_date = some ⟨2024, 1, 15⟩) ∧
    (update_watchlist_item 603 { watched_date := some none } updDB).1
        = { updDB with film := [] ++ { watchingRow with watched_date := none } :: [] } ∧
    update_watchlist_item 603 {} updDB
      = (updDB, Except.error ⟨400, "No fields to update"⟩) :=
  partial_update_preserves updDB 603 [] [] watchingRow ⟨2024, 1, 15⟩ rfl rfl rfl rfl rfl

/-- C5 counterexample: the claim fails for a genre name containing a comma.
Inserting a film whose single genre name is "War, Drama" and listing the
watchlist yields the two-element genre list ["War", " Drama"] — the
GROUP_CONCAT/split pair cuts the name at the comma — not the inserted
one-element list. -/
theorem genre_round_trip_counterexample :
    ((get_watchlist
        (add_to_watchlist 603
          (Except.ok (sampleFilm, sampleMeta, ["War, Drama"])) emptyDB).1).map
      WatchlistItem.genres = [some ["War", " Drama"]]) ∧
    (["War", " Drama"] ≠ ["War, Drama"]) := by
  exact ⟨by decide, by decide⟩

/-- C5 (amended): for a film inserted with a nonempty list of genre names in
which every name is nonempty and comma-free, listAll() returns exactly one
entry for that film whose genre list is exactly the inserted names in
insertion order.  (A name containing "," is split into pieces by the
GROUP_CONCAT/split round trip, and an empty list — or a concatenation that is
the empty string — surfaces as "no genres".) -/
theorem genre_round_trip (db : DBState) (i : Int) (fb : FilmBase) (md : MetaData)
    (g0 : String) (gs : List String)
    (hfb : fb.film_id = i)
    (hfilm : db.film.all (fun x => x.film_id != i) = true)
    (hmeta : db.meta.all (fun m => m.film_id != i) = true)
    (hgenre : db.genre.all (fun x => x.film_id != i) = true)
    (hnames : ∀ g ∈ g0 :: gs, g ≠ "" ∧ ',' ∉ g.toList) :
    ((get_watchlist
        (add_to_watchlist i (Except.ok (fb, md, g0 :: gs)) db).1).filter
      (fun it => it.film_id == i)).map WatchlistItem.genres
    = [some (g0 :: gs)] := by
  subst hfb
  have hany : db.film.any (fun x => x.film_id == fb.film_id) = false :=
    any_eq_false_of_all_ne (fun x => x.film_id) db.film fb.film_id hfilm
  have hadd : (add_to_watchlist fb.film_id (Except.ok (fb, md, g0 :: gs)) db).1
      = { film := db.film ++ [film_row_of fb]
          meta := db.meta ++ [meta_row_of fb md]
          genre := db.genre ++ genre_rows_of fb (g0 :: gs) } := by
    simp only [add_to_watchlist, hany, Bool.false_eq_true, if_false]
  rw [hadd]
  set db1 : DBState :=
    { film := db.film ++ [film_row_of fb]
      meta := db.meta ++ [meta_row_of fb md]
      genre := db.genre ++ genre_rows_of fb (g0 :: gs) } with hdb1
  have hmetafilt : db1.meta.filter
      (fun m => m.film_id == (film_row_of fb).film_id) = [meta_row_of fb md] := by
    show (db.meta ++ [meta_row_of fb md]).filter (fun m => m.film_id == fb.film_id) = _
    rw [List.filter_append,
      filter_eq_nil_of_all_ne (fun m => m.film_id) db.meta fb.film_id hmeta]
    simp [meta_row_of]
  have hgnames : genre_names_of db1 (film_row_of fb).film_id = g0 :: gs := by
    show ((db.genre ++ genre_rows_of fb (g0 :: gs)).filter
      (fun g => g.film_id == fb.film_id)).map GenreRow.name = _
    rw [List.filter_append,
      filter_eq_nil_of_all_ne (fun x => x.film_id) db.genre fb.film_id hgenre,
      List.nil_append]
    rw [List.filter_eq_self.mpr ?keep]
    case keep =>
      intro a ha
      obtain ⟨g, _, rfl⟩ := List.mem_map.mp ha
      simp
    unfold genre_rows_of
    rw [List.map_map]
    exact (List.map_congr_left fun x _ => rfl).trans (List.map_id _)
  have hitems : film_items db1 (film_row_of fb)
      = [build_watchlist_item (film_row_of fb) (some (meta_row_of fb md))
          (group_concat (g0 :: gs))] := by
    rw [film_items_meta_single db1 (film_row_of fb) (meta_row_of fb md) hmetafilt, hgnames]
  show ((((db.film ++ [film_row_of fb]).flatMap (film_items db1)).filter
      (fun it => it.film_id == fb.film_id)).map WatchlistItem.genres) = _
  rw [List.flatMap_append, List.filter_append,
    filter_flatMap_items_nil db1 fb.film_id db.film hfilm, List.nil_append]
  rw [List.flatMap_cons, List.flatMap_nil, List.append_nil, hitems]
  have hideq : ((build_watchlist_item (film_row_of fb) (some (meta_row_of fb md))
      (group_concat (g0 :: gs))).film_id == fb.film_id) = true := by
    simp [build_watchlist_item, film_row_of]
  simp only [List.filter_cons, hideq, if_true, List.filter_nil, List.map_cons,
    List.map_nil]
  show [genres_from_concat (group_concat (g0 :: gs))] = [some (g0 :: gs)]
  rw [genres_concat_round_trip g0 gs hnames]

/-- Witness for C5 (amended): three comma-free genres round-trip in order. -/
theorem genre_round_trip_witness :
    ((get_watchlist
        (add_to_watchlist 603
          (Except.ok (sampleFilm, sampleMeta, ["Action", "Drama", "War"])) emptyDB).1).filter
      (fun it => it.film_id == 603)).map WatchlistItem.genres
    = [some (["Action", "Drama", "War"] : List String)] :=
  genre_round_trip emptyDB 603 sampleFilm sampleMeta "Action" ["Drama", "War"]
    rfl rfl rfl rfl (by decide)

/-- C6 counterexample: the claim's status code is wrong.  With the remote
details fetch failing (an httpx.HTTPStatusError for a 404 from TMDB), the
add handler leaves the store untouched, but surfaces HTTP 500 with a
"Database error" detail — not a 502-class gateway status — because
add_to_watchlist has no `except httpx.HTTPStatusError` clause and the
generic `except Exception` clause answers 500. -/
theorem add_remote_failure_counterexample :
    add_to_watchlist 603
        (Except.error (PyError.httpStatusError 404 "Client error 404 for url"))
        emptyDB
      = (emptyDB,
         Except.error ⟨500, "Database error: Client error 404 for url"⟩) ∧
    (500 : Nat) ≠ 502 :=
  ⟨rfl, by decide⟩

/-- C6 (amended): if the remote details fetch fails — whether with an
httpx.HTTPStatusError or any other exception — no Store mutation occurs (the
state comes back unchanged, no Film, Meta or Genre row written) and the
operation surfaces HTTP 500 with a "Database error" detail (not a 502-class
gateway status). -/
theorem add_remote_failure_no_mutation (i : Int) (db : DBState) (c : Nat) (m : String) :
    add_to_watchlist i (Except.error (PyError.httpStatusError c m)) db
      = (db, Except.error ⟨500, "Database error: " ++ m⟩) ∧
    add_to_watchlist i (Except.error (PyError.otherError m)) db
      = (db, Except.error ⟨500, "Database error: " ++ m⟩) :=
  ⟨rfl, rfl⟩

/-- C4 (code bug): GET /genres/{type} never returns the genre list.  The
handler calls `tmdb_client.get_genres`, but src/tmdb_client.py defines no
such name, so the attribute lookup raises AttributeError and the handler's
generic exception clause answers HTTP 500 — for both media types — instead
of the 200-with-genre-list the spec describes. -/
theorem genres_route_returns_500 :
    get_tmdb_genres_route MediaType.movie
      = Except.error
          ⟨500, "An unexpected error occurred: module tmdb_client has no attribute get_genres"⟩ ∧
    get_tmdb_genres_route MediaType.tv
      = Except.error
          ⟨500, "An unexpected error occurred: module tmdb_client has no attribute get_genres"⟩ ∧
    "get_genres" ∉ tmdb_client_defined_names :=
  ⟨rfl, rfl, by decide⟩

end MovieMcp
